import Mathlib

/-!
Shallow embedding of the inventory transfer engine and low-stock alert
reporter of the retail-api repository (src/products/views.py,
src/products/models.py).

Modelling conventions:
* Database rows are Lean structures; each table is a list of rows held in a
  `DB` record.  Auto-assigned surrogate primary keys (`id` of Inventory and
  Movement, Django `pk`) and wall-clock timestamps (`Movement.timestamp`,
  `auto_now_add`) are not modelled; Inventory rows are identified by their
  `unique_together ("product", "store")` key, exactly as the view code
  addresses them (`Inventory.objects.get(product=..., store=...)`).
* `Inventory.objects.get` / `find?` return the first matching row; the
  database's unique constraint guarantees at most one match.
* Django `obj.save()` after mutating a field writes the new field value back
  to the row that was read; `saveQuantity` updates the (unique) matching row
  in place with the absolute new quantity.
* JSON values arriving in the request body for `quantity` are modelled by
  `PyVal`, keeping the Python typing behaviour that `bool` is a subclass of
  `int` (so `isinstance(True, int)` holds and `True` arithmetically equals 1).
  The three id fields are modelled as optional integers (present or missing).
* Python f-string messages are modelled as explicit string concatenations.
-/

namespace RetailApi

/-- Python values a JSON body can hold in the `quantity` field
(`json.loads` maps JSON numbers to `int`/`float`, `true`/`false` to `bool`,
strings to `str`, `null` to `None`). -/
inductive PyVal where
  | pint (n : Int)
  | pbool (b : Bool)
  | pstr (s : String)
  | pfloat
  | pnull
deriving DecidableEq

/-- Python `isinstance(v, int)`: true for `int` and for `bool`
(`bool` is a subclass of `int` in Python). -/
def isinstance_int : PyVal → Bool
  | .pint _ => true
  | .pbool _ => true
  | _ => false

/-- The integer value Python arithmetic uses for a value that passed
`isinstance(v, int)` (`True == 1`, `False == 0`). -/
def pyToInt : PyVal → Int
  | .pint n => n
  | .pbool b => if b then 1 else 0
  | _ => 0

/-- The check at views.py:307, `isinstance(quantity, int) and not quantity <= 0`
(the code tests the negation `not isinstance(quantity, int) or quantity <= 0`). -/
def quantityValid (v : PyVal) : Bool :=
  isinstance_int v && decide (0 < pyToInt v)

/-- Product row (products/models.py `Product`); `price` is a fixed-point
`DecimalField(max_digits=10, decimal_places=2)`, modelled in cents. -/
structure Product where
  id : Nat
  name : String
  description : String
  category : String
  price : Int
  sku : String
deriving DecidableEq

/-- Store row (products/models.py `Store`); `address` is nullable. -/
structure Store where
  id : Nat
  name : String
  address : Option String
deriving DecidableEq

/-- Inventory row (products/models.py `Inventory`): per (product, store)
quantity and low-stock threshold, `unique_together ("product", "store")`. -/
structure Inventory where
  product : Nat
  store : Nat
  quantity : Int
  min_stock : Int
deriving DecidableEq

/-- Movement row (products/models.py `Movement`): immutable audit record.
The nullable store references use `Option`. -/
structure Movement where
  product : Nat
  source_store : Option Nat
  target_store : Option Nat
  quantity : Int
  type : String
deriving DecidableEq

/-- The database state the two endpoints read and write. -/
structure DB where
  products : List Product
  stores : List Store
  inventories : List Inventory
  movements : List Movement
deriving DecidableEq

/-- Django `Product.objects.get(id=i)` (unique primary key). -/
def getProduct (db : DB) (i : Nat) : Option Product :=
  db.products.find? (fun p => p.id == i)

/-- Django `Store.objects.get(id=i)` (unique primary key). -/
def getStore (db : DB) (i : Nat) : Option Store :=
  db.stores.find? (fun s => s.id == i)

/-- Django `Inventory.objects.get(product=p, store=s)` on a list of rows:
the first row matching the key (unique by the table constraint). -/
def findInv : List Inventory → Nat → Nat → Option Inventory
  | [], _, _ => none
  | r :: rs, p, s =>
      if r.product == p && r.store == s then some r else findInv rs p s

/-- Django `Inventory.objects.get(product=p, store=s)` against the database. -/
def getInventory (db : DB) (p s : Nat) : Option Inventory :=
  findInv db.inventories p s

/-- Effect of `row.quantity = v; row.save()` on the table: the (unique)
matching row is rewritten with the new quantity, all other rows are kept. -/
def saveQuantity (p s : Nat) (v : Int) : List Inventory → List Inventory
  | [] => []
  | r :: rs =>
      if r.product == p && r.store == s then { r with quantity := v } :: rs
      else r :: saveQuantity p s v rs

/-- Message of views.py:302, `f"The field\x27{field}\x27 is required."`. -/
def missingFieldMsg (field : String) : String :=
  "The field\x27" ++ (field ++ "\x27 is required.")

/-- Message of views.py:340, the product-not-stocked-at-source error. -/
def outOfStockMsg (productName storeName : String) : String :=
  "The product is out of stock \x27" ++
    (productName ++ ("\x27 in the store \x27" ++ (storeName ++ "\x27.")))

/-- Message of views.py:347,
`f"Insufficient stock. Available: {available}, Required: {required}."`. -/
def insufficientMsg (available required : Int) : String :=
  "Insufficient stock. Available: " ++
    (toString available ++ (", Required: " ++ (toString required ++ ".")))

/-- Request body of `POST /inventory/transfer`; a `none` field is a key
missing from the JSON object. -/
structure TransferBody where
  product_id : Option Nat
  source_store_id : Option Nat
  target_store_id : Option Nat
  quantity : Option PyVal
deriving DecidableEq

/-- The `data` object of a successful transfer response (views.py:380-396).
The DB-assigned `transfer_id` and server-clock `timestamp` are not modelled. -/
structure TransferData where
  product_id : Nat
  product_name : String
  product_sku : String
  source_store_id : Nat
  source_store_name : String
  remaining_stock : Int
  target_store_id : Nat
  target_store_name : String
  new_stock : Int
  inventory_created : Bool
  quantity_transferred : Int
deriving DecidableEq

/-- Outcome of a transfer call: success payload, or an HTTP status with the
error message. -/
inductive TransferResult where
  | ok (data : TransferData)
  | err (status : Nat) (message : String)
deriving DecidableEq

/-- The code inside `with transaction.atomic():` at views.py:352-375, plus the
derived response fields.  `src` is the Inventory object read earlier at
views.py:335 (its `quantity` is the value that was read then), `q` the
validated quantity.  Returns the new database, the `created` flag of
`get_or_create`, and the target row quantity after the increment. -/
def transferAtomic (db : DB) (pid sid tid : Nat) (q : Int) (src : Inventory) :
    DB × Bool × Int :=
  let inv1 := saveQuantity pid sid (src.quantity - q) db.inventories
  let mov : Movement := ⟨pid, some sid, some tid, q, "TRANSFER"⟩
  match findInv inv1 pid tid with
  | some tgt =>
      ({ db with
          inventories := saveQuantity pid tid (tgt.quantity + q) inv1,
          movements := db.movements ++ [mov] },
       false, tgt.quantity + q)
  | none =>
      ({ db with
          inventories :=
            saveQuantity pid tid (0 + q) (inv1 ++ [⟨pid, tid, 0, 0⟩]),
          movements := db.movements ++ [mov] },
       true, 0 + q)

/-- The POST branch of `transfer_inventory` (views.py:290-398): field
presence checks in listed order, quantity check, same-store check, entity
resolution, source-stock check, then the atomic mutation. -/
def transfer_inventory (db : DB) (body : TransferBody) : TransferResult × DB :=
  match body.product_id with
  | none => (.err 400 (missingFieldMsg "product_id"), db)
  | some pid =>
  match body.source_store_id with
  | none => (.err 400 (missingFieldMsg "source_store_id"), db)
  | some sid =>
  match body.target_store_id with
  | none => (.err 400 (missingFieldMsg "target_store_id"), db)
  | some tid =>
  match body.quantity with
  | none => (.err 400 (missingFieldMsg "quantity"), db)
  | some qv =>
  if ¬ quantityValid qv then
    (.err 400 "The quantity must be a positive integer.", db)
  else
  if sid = tid then
    (.err 400 "The origin and destination stores must be different.", db)
  else
  match getProduct db pid with
  | none => (.err 404 "Product not found.", db)
  | some product =>
  match getStore db sid, getStore db tid with
  | some source_store, some target_store =>
    match getInventory db pid sid with
    | none =>
        (.err 400 (outOfStockMsg product.name source_store.name), db)
    | some source_inventory =>
      let q := pyToInt qv
      if source_inventory.quantity < q then
        (.err 400 (insufficientMsg source_inventory.quantity q), db)
      else
        let res := transferAtomic db pid sid tid q source_inventory
        (.ok { product_id := pid
               product_name := product.name
               product_sku := product.sku
               source_store_id := sid
               source_store_name := source_store.name
               remaining_stock := source_inventory.quantity - q
               target_store_id := tid
               target_store_name := target_store.name
               new_stock := res.2.2
               inventory_created := res.2.1
               quantity_transferred := q },
         res.1)
  | _, _ => (.err 404 "One or both stores could not be found.", db)

/-- Sum of `Inventory.quantity` over all rows of one product
(all stores), the quantity conserved by transfers. -/
def sumQty (p : Nat) : List Inventory → Int
  | [] => 0
  | r :: rs => (if r.product = p then r.quantity else 0) + sumQty p rs

/-- Django `get_category_display()`: the human label of the category code
(products/models.py `Product.Category`); an unknown code displays as itself. -/
def get_category_display (c : String) : String :=
  if c = "EL" then "Electronics"
  else if c = "FA" then "Fashion"
  else if c = "HO" then "Home"
  else if c = "TO" then "Toys"
  else if c = "SP" then "Sports"
  else c

/-- One entry of the alerts list built at views.py:452-471.  The DB-assigned
`inventory_id` is not modelled (see the module conventions). -/
structure Alert where
  product_id : Nat
  product_name : String
  product_sku : String
  product_category : String
  store_id : Nat
  store_name : String
  store_address : Option String
  current_stock : Int
  min_stock : Int
  deficit : Int
  alert_level : String
deriving DecidableEq

/-- The `data` object of the alerts response (views.py:479-489). -/
structure AlertsData where
  alerts : List Alert
  total_alerts : Nat
  critical_alerts : Nat
  warning_alerts : Nat
  filter_applied : Option Nat
deriving DecidableEq

/-- Outcome of an alerts call. -/
inductive AlertsResult where
  | ok (data : AlertsData)
  | err (status : Nat) (message : String)
deriving DecidableEq

/-- A low-stock row joined with its product and store
(`select_related("product", "store")`; foreign keys are non-null). -/
structure JoinedRow where
  row : Inventory
  product : Product
  store : Store
deriving DecidableEq

/-- Lexicographic comparison of character lists by code point, the order a
text column takes under the ORDER BY of views.py:448. -/
def charListLt : List Char → List Char → Bool
  | _, [] => false
  | [], _ :: _ => true
  | a :: as, b :: bs =>
      if a.val < b.val then true
      else if b.val < a.val then false
      else charListLt as bs

/-- String comparison by code points. -/
def strLt (a b : String) : Bool := charListLt a.data b.data

/-- Ordering used by `order_by("product__name", "store__name")` at
views.py:448: by product name, ties by store name. -/
def alertLe (x y : JoinedRow) : Prop :=
  strLt x.product.name y.product.name = true ∨
    (x.product.name = y.product.name ∧ strLt y.store.name x.store.name = false)

instance : DecidableRel alertLe := fun x y => by
  unfold alertLe; infer_instance

/-- The alert dictionary built for one joined row (views.py:453-470). -/
def mkAlert (j : JoinedRow) : Alert :=
  { product_id := j.product.id
    product_name := j.product.name
    product_sku := j.product.sku
    product_category := get_category_display j.product.category
    store_id := j.store.id
    store_name := j.store.name
    store_address := j.store.address
    current_stock := j.row.quantity
    min_stock := j.row.min_stock
    deficit := j.row.min_stock - j.row.quantity
    alert_level := if j.row.quantity = 0 then "critical" else "warning" }

/-- Join each Inventory row with its Product and Store rows; in the real
database the foreign keys always resolve. -/
def joinRows (db : DB) (rows : List Inventory) : List JoinedRow :=
  rows.filterMap (fun r =>
    match getProduct db r.product, getStore db r.store with
    | some pr, some st => some ⟨r, pr, st⟩
    | _, _ => none)

/-- Alerts list and summary built from the filtered rows
(views.py:448-489). -/
def buildAlerts (db : DB) (rows : List Inventory) (filt : Option Nat) :
    AlertsData :=
  let alerts := ((joinRows db rows).insertionSort alertLe).map mkAlert
  let total := alerts.length
  let critical := (alerts.filter (fun a => a.alert_level == "critical")).length
  { alerts := alerts
    total_alerts := total
    critical_alerts := critical
    warning_alerts := total - critical
    filter_applied := filt }

/-- The GET branch of `inventory_alerts` (views.py:429-491): filter rows with
`quantity <= min_stock`, optionally restrict to one store (which must exist),
order by product name then store name, and build the alert entries. -/
def inventory_alerts (db : DB) (store_id : Option Nat) : AlertsResult :=
  let low := db.inventories.filter (fun r => r.quantity ≤ r.min_stock)
  match store_id with
  | some sid =>
      match getStore db sid with
      | none => .err 404 "Store not found."
      | some _ => .ok (buildAlerts db (low.filter (fun r => r.store == sid)) (some sid))
  | none => .ok (buildAlerts db low none)

/-! Concrete fixtures used by the witness theorems. -/

/-- A catalog with one product stocked at two stores. -/
def dbW : DB :=
  { products := [⟨1, "Widget", "desc", "HO", 999, "SKU1"⟩]
    stores := [⟨1, "Central", none⟩, ⟨2, "Branch", some "addr"⟩]
    inventories := [⟨1, 1, 100, 0⟩, ⟨1, 2, 20, 0⟩]
    movements := [] }

/-- Transfer 30 units of product 1 from store 1 to store 2. -/
def bodyW : TransferBody := ⟨some 1, some 1, some 2, some (.pint 30)⟩

/-- Same catalog but the target store has no Inventory row for the product. -/
def dbC : DB :=
  { products := dbW.products
    stores := dbW.stores
    inventories := [⟨1, 1, 100, 0⟩]
    movements := [] }

/-- Same catalog but only 5 units at the source store. -/
def db4 : DB :=
  { products := dbW.products
    stores := dbW.stores
    inventories := [⟨1, 1, 5, 0⟩]
    movements := [] }

/-- Transfer request for 10 units of product 1 from store 1 to store 2. -/
def body4 : TransferBody := ⟨some 1, some 1, some 2, some (.pint 10)⟩

/-- Substring containment: `sub` occurs contiguously inside `s`. -/
def containsStr (s sub : String) : Prop :=
  ∃ pre post, s = pre ++ (sub ++ post)

/-- Transfer request naming the same store as source and target. -/
def bodySame : TransferBody := ⟨some 1, some 1, some 1, some (.pint 5)⟩

/-- Transfer request whose quantity is a JSON string. -/
def body8 : TransferBody := ⟨some 1, some 1, some 2, some (.pstr "x")⟩

/-- The response data of `transfer_inventory dbW bodyW`. -/
def dataW : TransferData :=
  ⟨1, "Widget", "SKU1", 1, "Central", 70, 2, "Branch", 50, false, 30⟩

/-- The response data of `transfer_inventory dbC bodyW`. -/
def dataC : TransferData :=
  ⟨1, "Widget", "SKU1", 1, "Central", 70, 2, "Branch", 30, true, 30⟩

/-- Two products and two stores with two low-stock rows at store 1
(one critical, one warning) and a healthy row at store 2. -/
def db7 : DB :=
  { products := [⟨1, "A", "d", "EL", 10, "S1"⟩, ⟨2, "B", "d", "HO", 10, "S2"⟩]
    stores := [⟨1, "X", none⟩, ⟨2, "Y", none⟩]
    inventories := [⟨1, 1, 0, 2⟩, ⟨2, 1, 1, 2⟩, ⟨1, 2, 5, 2⟩]
    movements := [] }

/-- The alerts response for `inventory_alerts db7 none`. -/
def data7 : AlertsData :=
  { alerts :=
      [⟨1, "A", "S1", "Electronics", 1, "X", none, 0, 2, 2, "critical"⟩,
       ⟨2, "B", "S2", "Home", 1, "X", none, 1, 2, 1, "warning"⟩]
    total_alerts := 2
    critical_alerts := 1
    warning_alerts := 1
    filter_applied := none }

/-- One product with 5 units at store 1 and no row at store 2, the initial
state of the race scenario. -/
def db9 : DB :=
  { products := [⟨1, "Widget", "desc", "HO", 999, "SKU1"⟩]
    stores := [⟨1, "Central", none⟩, ⟨2, "Branch", some "addr"⟩]
    inventories := [⟨1, 1, 5, 0⟩]
    movements := [] }

/-- The source Inventory object both concurrent requests obtain from the
unlocked `Inventory.objects.get` at views.py:335 when they read `db9`
before either has written. -/
def staleRead : Inventory := ⟨1, 1, 5, 0⟩

end RetailApi

namespace RetailApi

/-! Supporting lemmas about the row-level primitives. -/

theorem findInv_key {l : List Inventory} {p s : Nat} {r : Inventory}
    (h : findInv l p s = some r) : r.product = p ∧ r.store = s := by
  induction l with
  | nil => simp [findInv] at h
  | cons a l ih =>
    rw [findInv] at h
    by_cases hc : (a.product == p && a.store == s) = true
    · rw [if_pos hc] at h
      cases h
      simpa [Bool.and_eq_true] using hc
    · rw [if_neg hc] at h
      exact ih h

theorem findInv_saveQuantity_self {l : List Inventory} {p s : Nat} {v : Int}
    {r : Inventory} (h : findInv l p s = some r) :
    findInv (saveQuantity p s v l) p s = some { r with quantity := v } := by
  induction l with
  | nil => simp [findInv] at h
  | cons a l ih =>
    rw [findInv] at h
    by_cases hc : (a.product == p && a.store == s) = true
    · rw [if_pos hc] at h
      cases h
      simp [saveQuantity, hc, findInv]
    · rw [if_neg hc] at h
      simp only [saveQuantity, hc, if_neg, Bool.not_eq_true, if_false]
      rw [findInv, if_neg hc]
      exact ih h

theorem findInv_saveQuantity_ne {l : List Inventory} {p s p' s' : Nat} {v : Int}
    (hne : ¬(p = p' ∧ s = s')) :
    findInv (saveQuantity p' s' v l) p s = findInv l p s := by
  induction l with
  | nil => simp [saveQuantity]
  | cons a l ih =>
    by_cases hc : (a.product == p' && a.store == s') = true
    · have hkey : ¬ (a.product == p && a.store == s) = true := by
        simp only [Bool.and_eq_true, beq_iff_eq] at hc ⊢
        rintro ⟨hp, hs⟩
        exact hne ⟨by omega, by omega⟩
      rw [saveQuantity, if_pos hc, findInv, findInv]
      simp only [hkey, if_neg, Bool.not_eq_true, if_false]
    · rw [saveQuantity, if_neg hc, findInv, findInv]
      by_cases hd : (a.product == p && a.store == s) = true
      · simp [hd]
      · simp [hd, ih]

theorem findInv_append_of_none {l l' : List Inventory} {p s : Nat}
    (h : findInv l p s = none) :
    findInv (l ++ l') p s = findInv l' p s := by
  induction l with
  | nil => simp
  | cons a l ih =>
    rw [findInv] at h
    by_cases hc : (a.product == p && a.store == s) = true
    · rw [if_pos hc] at h; cases h
    · rw [if_neg hc] at h
      rw [List.cons_append, findInv, if_neg hc]
      exact ih h

theorem mem_saveQuantity_iff {l : List Inventory} {p s : Nat} {v : Int}
    {r : Inventory} (hr : ¬(r.product = p ∧ r.store = s)) :
    r ∈ saveQuantity p s v l ↔ r ∈ l := by
  induction l with
  | nil => simp [saveQuantity]
  | cons a l ih =>
    by_cases hc : (a.product == p && a.store == s) = true
    · simp only [Bool.and_eq_true, beq_iff_eq] at hc
      rw [saveQuantity]
      rw [if_pos (by simp [hc])]
      simp only [List.mem_cons]
      constructor
      · rintro (h | h)
        · exact absurd (by subst h; exact ⟨hc.1, hc.2⟩) hr
        · exact Or.inr h
      · rintro (h | h)
        · exact absurd (by subst h; exact ⟨hc.1, hc.2⟩) hr
        · exact Or.inr h
    · rw [saveQuantity, if_neg hc]
      simp [ih]

theorem quantity_of_mem_saveQuantity {l : List Inventory} {p s : Nat} {v : Int}
    {r : Inventory} (h : r ∈ saveQuantity p s v l) :
    r ∈ l ∨ r.quantity = v := by
  induction l with
  | nil => simp [saveQuantity] at h
  | cons a l ih =>
    by_cases hc : (a.product == p && a.store == s) = true
    · rw [saveQuantity, if_pos hc] at h
      rcases List.mem_cons.mp h with h | h
      · exact Or.inr (by simp [h])
      · exact Or.inl (List.mem_cons_of_mem _ h)
    · rw [saveQuantity, if_neg hc] at h
      rcases List.mem_cons.mp h with h | h
      · exact Or.inl (by simp [h])
      · rcases ih h with h | h
        · exact Or.inl (List.mem_cons_of_mem _ h)
        · exact Or.inr h

theorem sumQty_saveQuantity {l : List Inventory} {p s : Nat} {v : Int}
    {r : Inventory} (h : findInv l p s = some r) :
    sumQty p (saveQuantity p s v l) = sumQty p l - r.quantity + v := by
  induction l with
  | nil => simp [findInv] at h
  | cons a l ih =>
    rw [findInv] at h
    by_cases hc : (a.product == p && a.store == s) = true
    · rw [if_pos hc] at h
      cases h
      have hp : r.product = p := by
        simp only [Bool.and_eq_true, beq_iff_eq] at hc
        exact hc.1
      rw [saveQuantity, if_pos hc]
      simp [sumQty, hp]
      omega
    · rw [if_neg hc] at h
      rw [saveQuantity, if_neg hc]
      simp only [sumQty, ih h]
      omega

theorem findInv_mem {l : List Inventory} {p s : Nat} {r : Inventory}
    (h : findInv l p s = some r) : r ∈ l := by
  induction l with
  | nil => simp [findInv] at h
  | cons a l ih =>
    rw [findInv] at h
    by_cases hc : (a.product == p && a.store == s) = true
    · rw [if_pos hc] at h
      cases h
      exact List.mem_cons_self _ _
    · rw [if_neg hc] at h
      exact List.mem_cons_of_mem _ (ih h)

theorem findInv_append (l l' : List Inventory) (p s : Nat) :
    findInv (l ++ l') p s =
      match findInv l p s with
      | some r => some r
      | none => findInv l' p s := by
  induction l with
  | nil => simp [findInv]
  | cons a l ih =>
    rw [List.cons_append, findInv, findInv]
    by_cases hc : (a.product == p && a.store == s) = true
    · rw [if_pos hc, if_pos hc]
    · rw [if_neg hc, if_neg hc, ih]

theorem sumQty_append (p : Nat) (l l' : List Inventory) :
    sumQty p (l ++ l') = sumQty p l + sumQty p l' := by
  induction l with
  | nil => simp [sumQty]
  | cons a l ih =>
    rw [List.cons_append, sumQty, sumQty, ih]
    omega

/-! Inversion lemmas for the transfer operation. -/

theorem transfer_err_state {db : DB} {body : TransferBody} {c : Nat} {m : String}
    {db' : DB} (h : transfer_inventory db body = (.err c m, db')) : db' = db := by
  cases hp : body.product_id with
  | none =>
    simp only [transfer_inventory, hp] at h
    exact ((Prod.ext_iff.mp h).2).symm
  | some pid =>
  cases hs : body.source_store_id with
  | none =>
    simp only [transfer_inventory, hp, hs] at h
    exact ((Prod.ext_iff.mp h).2).symm
  | some sid =>
  cases ht : body.target_store_id with
  | none =>
    simp only [transfer_inventory, hp, hs, ht] at h
    exact ((Prod.ext_iff.mp h).2).symm
  | some tid =>
  cases hq : body.quantity with
  | none =>
    simp only [transfer_inventory, hp, hs, ht, hq] at h
    exact ((Prod.ext_iff.mp h).2).symm
  | some qv =>
  simp only [transfer_inventory, hp, hs, ht, hq] at h
  by_cases hqv : quantityValid qv = true
  case neg =>
    rw [if_pos (by exact hqv)] at h
    exact ((Prod.ext_iff.mp h).2).symm
  case pos =>
  rw [if_neg (not_not_intro hqv)] at h
  by_cases hst : sid = tid
  case pos =>
    rw [if_pos hst] at h
    exact ((Prod.ext_iff.mp h).2).symm
  case neg =>
  rw [if_neg hst] at h
  cases hpr : getProduct db pid with
  | none =>
    simp only [hpr] at h
    exact ((Prod.ext_iff.mp h).2).symm
  | some product =>
  simp only [hpr] at h
  cases hss : getStore db sid with
  | none =>
    simp only [hss] at h
    exact ((Prod.ext_iff.mp h).2).symm
  | some source_store =>
  cases hts : getStore db tid with
  | none =>
    simp only [hss, hts] at h
    exact ((Prod.ext_iff.mp h).2).symm
  | some target_store =>
  simp only [hss, hts] at h
  cases hsrc : getInventory db pid sid with
  | none =>
    simp only [hsrc] at h
    exact ((Prod.ext_iff.mp h).2).symm
  | some src =>
  simp only [hsrc] at h
  by_cases hlt : src.quantity < pyToInt qv
  case pos =>
    rw [if_pos hlt] at h
    exact ((Prod.ext_iff.mp h).2).symm
  case neg =>
    rw [if_neg hlt] at h
    exact absurd (Prod.ext_iff.mp h).1 (by simp)

theorem transfer_ok_inv {db : DB} {body : TransferBody} {data : TransferData}
    {db' : DB} (h : transfer_inventory db body = (.ok data, db')) :
    ∃ pid sid tid qv product source_store target_store src,
      body.product_id = some pid ∧ body.source_store_id = some sid ∧
      body.target_store_id = some tid ∧ body.quantity = some qv ∧
      quantityValid qv = true ∧ sid ≠ tid ∧
      getProduct db pid = some product ∧
      getStore db sid = some source_store ∧
      getStore db tid = some target_store ∧
      getInventory db pid sid = some src ∧
      ¬ src.quantity < pyToInt qv ∧
      db' = (transferAtomic db pid sid tid (pyToInt qv) src).1 ∧
      data = { product_id := pid
               product_name := product.name
               product_sku := product.sku
               source_store_id := sid
               source_store_name := source_store.name
               remaining_stock := src.quantity - pyToInt qv
               target_store_id := tid
               target_store_name := target_store.name
               new_stock := (transferAtomic db pid sid tid (pyToInt qv) src).2.2
               inventory_created := (transferAtomic db pid sid tid (pyToInt qv) src).2.1
               quantity_transferred := pyToInt qv } := by
  cases hp : body.product_id with
  | none =>
    simp only [transfer_inventory, hp] at h
    exact absurd (Prod.ext_iff.mp h).1 (by simp)
  | some pid =>
  cases hs : body.source_store_id with
  | none =>
    simp only [transfer_inventory, hp, hs] at h
    exact absurd (Prod.ext_iff.mp h).1 (by simp)
  | some sid =>
  cases ht : body.target_store_id with
  | none =>
    simp only [transfer_inventory, hp, hs, ht] at h
    exact absurd (Prod.ext_iff.mp h).1 (by simp)
  | some tid =>
  cases hq : body.quantity with
  | none =>
    simp only [transfer_inventory, hp, hs, ht, hq] at h
    exact absurd (Prod.ext_iff.mp h).1 (by simp)
  | some qv =>
  by_cases hqv : quantityValid qv = true
  case neg =>
    simp only [transfer_inventory, hp, hs, ht, hq] at h
    rw [if_pos (by exact hqv)] at h
    exact absurd (Prod.ext_iff.mp h).1 (by simp)
  case pos =>
  simp only [transfer_inventory, hp, hs, ht, hq] at h
  rw [if_neg (not_not_intro hqv)] at h
  by_cases hst : sid = tid
  case pos =>
    rw [if_pos hst] at h
    exact absurd (Prod.ext_iff.mp h).1 (by simp)
  case neg =>
  rw [if_neg hst] at h
  cases hpr : getProduct db pid with
  | none =>
    simp only [hpr] at h
    exact absurd (Prod.ext_iff.mp h).1 (by simp)
  | some product =>
  simp only [hpr] at h
  cases hss : getStore db sid with
  | none =>
    simp only [hss] at h
    exact absurd (Prod.ext_iff.mp h).1 (by simp)
  | some source_store =>
  cases hts : getStore db tid with
  | none =>
    simp only [hss, hts] at h
    exact absurd (Prod.ext_iff.mp h).1 (by simp)
  | some target_store =>
  simp only [hss, hts] at h
  cases hsrc : getInventory db pid sid with
  | none =>
    simp only [hsrc] at h
    exact absurd (Prod.ext_iff.mp h).1 (by simp)
  | some src =>
  simp only [hsrc] at h
  by_cases hlt : src.quantity < pyToInt qv
  case pos =>
    rw [if_pos hlt] at h
    exact absurd (Prod.ext_iff.mp h).1 (by simp)
  case neg =>
  rw [if_neg hlt] at h
  simp only [Prod.mk.injEq, TransferResult.ok.injEq] at h
  exact ⟨pid, sid, tid, qv, product, source_store, target_store, src,
    rfl, rfl, rfl, rfl, hqv, hst, hpr, hss, hts, hsrc, hlt, h.2.symm, h.1.symm⟩

theorem transferAtomic_spec {db : DB} {pid sid tid : Nat} {q : Int}
    {src : Inventory} {db2 : DB} {cr : Bool} {ns : Int}
    (hsrc : findInv db.inventories pid sid = some src) (hne : sid ≠ tid)
    (h : transferAtomic db pid sid tid q src = (db2, cr, ns)) :
    db2.products = db.products ∧ db2.stores = db.stores ∧
    db2.movements = db.movements ++ [⟨pid, some sid, some tid, q, "TRANSFER"⟩] ∧
    findInv db2.inventories pid sid =
      some { src with quantity := src.quantity - q } ∧
    (∀ r : Inventory, ¬(r.product = pid ∧ (r.store = sid ∨ r.store = tid)) →
       (r ∈ db2.inventories ↔ r ∈ db.inventories)) ∧
    sumQty pid db2.inventories = sumQty pid db.inventories ∧
    (match findInv db.inventories pid tid with
     | some t =>
         cr = false ∧ ns = t.quantity + q ∧
         findInv db2.inventories pid tid =
           some { t with quantity := t.quantity + q }
     | none =>
         cr = true ∧ ns = 0 + q ∧
         findInv db2.inventories pid tid = some ⟨pid, tid, 0 + q, 0⟩) := by
  have hnst : ¬(pid = pid ∧ tid = sid) := fun hx => hne hx.2.symm
  have hnts : ¬(pid = pid ∧ sid = tid) := fun hx => hne hx.2
  simp only [transferAtomic] at h
  have hfix :
      findInv (saveQuantity pid sid (src.quantity - q) db.inventories) pid tid =
        findInv db.inventories pid tid :=
    findInv_saveQuantity_ne hnst
  have hsrc1 :
      findInv (saveQuantity pid sid (src.quantity - q) db.inventories) pid sid =
        some { src with quantity := src.quantity - q } :=
    findInv_saveQuantity_self hsrc
  have hsum1 :
      sumQty pid (saveQuantity pid sid (src.quantity - q) db.inventories) =
        sumQty pid db.inventories - src.quantity + (src.quantity - q) :=
    sumQty_saveQuantity hsrc
  cases hft : findInv db.inventories pid tid with
  | some t =>
    rw [hfix, hft] at h
    simp only [Prod.mk.injEq] at h
    obtain ⟨h1, h2, h3⟩ := h
    subst h1 h2 h3
    refine ⟨rfl, rfl, rfl, ?_, ?_, ?_, rfl, rfl, ?_⟩
    · rw [findInv_saveQuantity_ne hnts]
      exact hsrc1
    · intro r hr
      rw [mem_saveQuantity_iff (fun hx => hr ⟨hx.1, Or.inr hx.2⟩),
        mem_saveQuantity_iff (fun hx => hr ⟨hx.1, Or.inl hx.2⟩)]
    · rw [sumQty_saveQuantity (hfix.trans hft), hsum1]
      omega
    · exact findInv_saveQuantity_self (hfix.trans hft)
  | none =>
    rw [hfix, hft] at h
    simp only [Prod.mk.injEq] at h
    obtain ⟨h1, h2, h3⟩ := h
    subst h1 h2 h3
    have hnew :
        findInv (saveQuantity pid sid (src.quantity - q) db.inventories ++
          [⟨pid, tid, 0, 0⟩]) pid tid = some ⟨pid, tid, 0, 0⟩ := by
      rw [findInv_append, hfix.trans hft, findInv]
      simp
    refine ⟨rfl, rfl, rfl, ?_, ?_, ?_, rfl, rfl, ?_⟩
    · rw [findInv_saveQuantity_ne hnts, findInv_append, hsrc1]
    · intro r hr
      rw [mem_saveQuantity_iff (fun hx => hr ⟨hx.1, Or.inr hx.2⟩),
        List.mem_append,
        mem_saveQuantity_iff (fun hx => hr ⟨hx.1, Or.inl hx.2⟩)]
      simp only [List.mem_singleton]
      constructor
      · rintro (hx | hx)
        · exact hx
        · exact absurd (by simp [hx]) (fun hy : r.product = pid ∧ r.store = tid =>
            hr ⟨hy.1, Or.inr hy.2⟩)
      · exact Or.inl
    · rw [sumQty_saveQuantity hnew, sumQty_append, hsum1]
      simp [sumQty]
    · exact findInv_saveQuantity_self hnew

theorem transferAtomic_nonneg {db : DB} {pid sid tid : Nat} {q : Int}
    {src : Inventory} {db2 : DB} {cr : Bool} {ns : Int}
    (h : transferAtomic db pid sid tid q src = (db2, cr, ns))
    (hq0 : 0 ≤ q) (hsq : q ≤ src.quantity)
    (hnn : ∀ r ∈ db.inventories, 0 ≤ r.quantity) :
    ∀ r ∈ db2.inventories, 0 ≤ r.quantity := by
  simp only [transferAtomic] at h
  have hinv1 : ∀ r ∈ saveQuantity pid sid (src.quantity - q) db.inventories,
      0 ≤ r.quantity := by
    intro r hr
    rcases quantity_of_mem_saveQuantity hr with hr | hr
    · exact hnn r hr
    · omega
  cases hft :
      findInv (saveQuantity pid sid (src.quantity - q) db.inventories) pid tid with
  | some t =>
    rw [hft] at h
    simp only [Prod.mk.injEq] at h
    obtain ⟨h1, h2, h3⟩ := h
    subst h1 h2 h3
    intro r hr
    rcases quantity_of_mem_saveQuantity hr with hr | hr
    · exact hinv1 r hr
    · have := hinv1 t (findInv_mem hft)
      omega
  | none =>
    rw [hft] at h
    simp only [Prod.mk.injEq] at h
    obtain ⟨h1, h2, h3⟩ := h
    subst h1 h2 h3
    intro r hr
    rcases quantity_of_mem_saveQuantity hr with hr | hr
    · rcases List.mem_append.mp hr with hr | hr
      · exact hinv1 r hr
      · rw [List.mem_singleton.mp hr]
    · omega

/-! String helpers for reasoning about the error messages. -/

theorem append_data_get? (a b : String) (i : Nat) (h : i < a.data.length) :
    (a ++ b).data[i]? = a.data[i]? := by
  rw [String.data_append]
  exact List.getElem?_append_left h

theorem err_inj {s₁ s₂ : Nat} {m₁ m₂ : String}
    (h : TransferResult.err s₁ m₁ = TransferResult.err s₂ m₂) : m₁ = m₂ := by
  cases h; rfl

theorem outOfStockMsg_ne (pn sn : String) :
    outOfStockMsg pn sn ≠ "The quantity must be a positive integer." := by
  intro he
  have h4 : (outOfStockMsg pn sn).data[4]? =
      ("The quantity must be a positive integer." : String).data[4]? := by
    rw [he]
  rw [outOfStockMsg, append_data_get? _ _ 4 (by decide)] at h4
  revert h4
  decide

theorem insufficientMsg_ne (a q : Int) :
    insufficientMsg a q ≠ "The quantity must be a positive integer." := by
  intro he
  have h0 : (insufficientMsg a q).data[0]? =
      ("The quantity must be a positive integer." : String).data[0]? := by
    rw [he]
  rw [insufficientMsg, append_data_get? _ _ 0 (by decide)] at h0
  revert h0
  decide

/-! Helpers for the alert reporter. -/

theorem getProduct_id {db : DB} {i : Nat} {pr : Product}
    (h : getProduct db i = some pr) : pr.id = i := by
  simpa using List.find?_some h

theorem getStore_id {db : DB} {i : Nat} {st : Store}
    (h : getStore db i = some st) : st.id = i := by
  simpa using List.find?_some h

theorem mem_joinRows {db : DB} {rows : List Inventory} {j : JoinedRow} :
    j ∈ joinRows db rows ↔
      j.row ∈ rows ∧ getProduct db j.row.product = some j.product ∧
        getStore db j.row.store = some j.store := by
  unfold joinRows
  rw [List.mem_filterMap]
  constructor
  · rintro ⟨r, hr, hmatch⟩
    cases hpr : getProduct db r.product with
    | none =>
      simp only [hpr] at hmatch
      exact absurd hmatch (by simp)
    | some pr =>
      cases hst : getStore db r.store with
      | none =>
        simp only [hpr, hst] at hmatch
        exact absurd hmatch (by simp)
      | some st =>
        simp only [hpr, hst] at hmatch
        cases Option.some.inj hmatch
        exact ⟨hr, hpr, hst⟩
  · rintro ⟨hr, hpr, hst⟩
    refine ⟨j.row, hr, ?_⟩
    simp only [hpr, hst]

theorem mem_buildAlerts {db : DB} {rows : List Inventory} {filtv : Option Nat}
    {a : Alert} :
    a ∈ (buildAlerts db rows filtv).alerts ↔
      ∃ j ∈ joinRows db rows, mkAlert j = a := by
  show a ∈ ((joinRows db rows).insertionSort alertLe).map mkAlert ↔ _
  rw [List.mem_map]
  simp only [List.mem_insertionSort]

theorem mkAlert_fields (j : JoinedRow) :
    (mkAlert j).deficit = (mkAlert j).min_stock - (mkAlert j).current_stock ∧
    ((mkAlert j).alert_level = "critical" ↔ (mkAlert j).current_stock = 0) := by
  unfold mkAlert
  refine ⟨rfl, ?_⟩
  by_cases h : j.row.quantity = 0
  · simp [h]
  · simp only [if_neg h]
    constructor
    · intro hc
      exact absurd hc (by decide)
    · intro h0
      exact absurd h0 h

/-! Claim theorems. -/

/-- C1: for every successful Transfer of quantity q of product p from store s
to store t, the total of `Inventory.quantity` over all stores for product p is
the same after the operation as before it; the source row is decremented by q,
the target row ends at its previous quantity (0 if absent) plus q, and every
other Inventory row is untouched. -/
theorem transfer_conserves_product_total
    (db : DB) (body : TransferBody) (data : TransferData) (db' : DB)
    (pid sid tid : Nat) (qv : PyVal)
    (hp : body.product_id = some pid) (hs : body.source_store_id = some sid)
    (ht : body.target_store_id = some tid) (hq : body.quantity = some qv)
    (h : transfer_inventory db body = (.ok data, db')) :
    sumQty pid db'.inventories = sumQty pid db.inventories ∧
    (∃ src, findInv db.inventories pid sid = some src ∧
       findInv db'.inventories pid sid =
         some { src with quantity := src.quantity - pyToInt qv }) ∧
    (∃ tgt, findInv db'.inventories pid tid = some tgt ∧
       tgt.quantity =
         (match findInv db.inventories pid tid with
          | some t => t.quantity
          | none => 0) + pyToInt qv) ∧
    (∀ r ∈ db.inventories,
       ¬(r.product = pid ∧ (r.store = sid ∨ r.store = tid)) →
       r ∈ db'.inventories) := by
  obtain ⟨pid', sid', tid', qv', product, ss, ts, src, hp', hs', ht', hq',
    hqv, hst, hpr, hss, hts, hsrc, hlt, hdb', hdata⟩ := transfer_ok_inv h
  obtain rfl : pid = pid' := Option.some.inj (hp.symm.trans hp')
  obtain rfl : sid = sid' := Option.some.inj (hs.symm.trans hs')
  obtain rfl : tid = tid' := Option.some.inj (ht.symm.trans ht')
  obtain rfl : qv = qv' := Option.some.inj (hq.symm.trans hq')
  subst hdb'
  have hsrc' : findInv db.inventories pid sid = some src := hsrc
  obtain ⟨hprodEq, hstoresEq, hmovEq, hsrcNew, hframe, hsum, hmatch⟩ :=
    transferAtomic_spec hsrc' hst rfl
  refine ⟨hsum, ⟨src, hsrc', hsrcNew⟩, ?_, ?_⟩
  · cases hft : findInv db.inventories pid tid with
    | some t =>
      rw [hft] at hmatch
      exact ⟨{ t with quantity := t.quantity + pyToInt qv }, hmatch.2.2, rfl⟩
    | none =>
      rw [hft] at hmatch
      exact ⟨⟨pid, tid, 0 + pyToInt qv, 0⟩, hmatch.2.2, rfl⟩
  · intro r hr hneq
    exact (hframe r hneq).mpr hr

/-- Witness for C1 applied at a concrete state: moving 30 units between the
two stores of `dbW` keeps the total for product 1 at 120. -/
theorem transfer_conserves_product_total_w :
    sumQty 1 (transfer_inventory dbW bodyW).2.inventories =
      sumQty 1 dbW.inventories :=
  (transfer_conserves_product_total dbW bodyW dataW
    (transfer_inventory dbW bodyW).2 1 1 2 (.pint 30)
    rfl rfl rfl rfl (by decide)).1

/-- C2: every Transfer call that returns an error (validation or not-found)
leaves the database exactly as it was: no Inventory row is changed or
created and no Movement row is appended. -/
theorem transfer_failure_leaves_state_unchanged
    (db : DB) (body : TransferBody) (c : Nat) (m : String) (db' : DB)
    (h : transfer_inventory db body = (.err c m, db')) : db' = db :=
  transfer_err_state h

/-- Witness for C2 applied at a concrete state: a same-store request against
`dbW` fails and returns the database unchanged. -/
theorem transfer_failure_leaves_state_unchanged_w :
    (transfer_inventory dbW bodySame).2 = dbW :=
  transfer_failure_leaves_state_unchanged dbW bodySame 400
    "The origin and destination stores must be different."
    (transfer_inventory dbW bodySame).2 (by decide)

/-- C3: a successful Transfer call appends exactly one Movement row, of type
TRANSFER with the requested product, source store, target store and quantity,
and a failed call appends none. -/
theorem transfer_appends_at_most_one_movement
    (db : DB) (body : TransferBody) :
    (∀ data db', transfer_inventory db body = (.ok data, db') →
       db'.movements = db.movements ++
         [⟨data.product_id, some data.source_store_id,
           some data.target_store_id, data.quantity_transferred, "TRANSFER"⟩] ∧
       body.product_id = some data.product_id ∧
       body.source_store_id = some data.source_store_id ∧
       body.target_store_id = some data.target_store_id ∧
       body.quantity.map pyToInt = some data.quantity_transferred) ∧
    (∀ c m db', transfer_inventory db body = (.err c m, db') →
       db'.movements = db.movements) := by
  constructor
  · intro data db' h
    obtain ⟨pid, sid, tid, qv, product, ss, ts, src, hp, hs, ht, hq,
      hqv, hst, hpr, hss, hts, hsrc, hlt, hdb', hdata⟩ := transfer_ok_inv h
    subst hdb'
    have hsrc' : findInv db.inventories pid sid = some src := hsrc
    obtain ⟨-, -, hmov, -⟩ := transferAtomic_spec hsrc' hst rfl
    subst hdata
    exact ⟨hmov, hp, hs, ht, by rw [hq]; rfl⟩
  · intro c m db' h
    rw [transfer_err_state h]

/-- Witness for C3 applied at a concrete state: the successful transfer on
`dbW` appends the single expected TRANSFER movement. -/
theorem transfer_appends_at_most_one_movement_w :
    (transfer_inventory dbW bodyW).2.movements =
      dbW.movements ++
        [⟨dataW.product_id, some dataW.source_store_id,
          some dataW.target_store_id, dataW.quantity_transferred, "TRANSFER"⟩] ∧
    bodyW.product_id = some dataW.product_id ∧
    bodyW.source_store_id = some dataW.source_store_id ∧
    bodyW.target_store_id = some dataW.target_store_id ∧
    bodyW.quantity.map pyToInt = some dataW.quantity_transferred :=
  (transfer_appends_at_most_one_movement dbW bodyW).1 dataW
    (transfer_inventory dbW bodyW).2 (by decide)

/-- C5: starting from a state in which every Inventory quantity is
non-negative, any Transfer call (successful or failed) again leaves every
Inventory quantity non-negative. -/
theorem transfer_preserves_nonneg_stock
    (db : DB) (body : TransferBody)
    (hnn : ∀ r ∈ db.inventories, 0 ≤ r.quantity) :
    ∀ r ∈ (transfer_inventory db body).2.inventories, 0 ≤ r.quantity := by
  cases hres : (transfer_inventory db body).1 with
  | err c m =>
    have : transfer_inventory db body = (.err c m, (transfer_inventory db body).2) := by
      rw [← hres]
    rw [transfer_err_state this]
    exact hnn
  | ok data =>
    have h : transfer_inventory db body = (.ok data, (transfer_inventory db body).2) := by
      rw [← hres]
    obtain ⟨pid, sid, tid, qv, product, ss, ts, src, hp, hs, ht, hq,
      hqv, hst, hpr, hss, hts, hsrc, hlt, hdb', hdata⟩ := transfer_ok_inv h
    rw [hdb']
    have hq0 : 0 < pyToInt qv := by
      have := hqv
      unfold quantityValid at this
      simp only [Bool.and_eq_true, decide_eq_true_eq] at this
      exact this.2
    exact transferAtomic_nonneg rfl (by omega) (by omega) hnn

/-- Witness for C5 applied at a concrete state: the source row after the
`dbW` transfer still has a non-negative quantity. -/
theorem transfer_preserves_nonneg_stock_w :
    (0 : Int) ≤ (⟨1, 1, 70, 0⟩ : Inventory).quantity :=
  transfer_preserves_nonneg_stock dbW bodyW (by decide)
    ⟨1, 1, 70, 0⟩ (by decide)

/-- C6: on a successful Transfer, if no Inventory row existed for the
(product, target store) pair, a new row is created ending at quantity q with
`min_stock = 0` and the response reports `inventory_created = true`;
if the row existed, its quantity grows by q, its `min_stock` is kept (the
record update below changes only the quantity field), and the response
reports `inventory_created = false`. -/
theorem transfer_target_get_or_create
    (db : DB) (body : TransferBody) (data : TransferData) (db' : DB)
    (pid sid tid : Nat) (qv : PyVal)
    (hp : body.product_id = some pid) (hs : body.source_store_id = some sid)
    (ht : body.target_store_id = some tid) (hq : body.quantity = some qv)
    (h : transfer_inventory db body = (.ok data, db')) :
    (getInventory db pid tid = none →
       data.inventory_created = true ∧
       findInv db'.inventories pid tid = some ⟨pid, tid, pyToInt qv, 0⟩ ∧
       data.new_stock = pyToInt qv) ∧
    (∀ rt, getInventory db pid tid = some rt →
       data.inventory_created = false ∧
       findInv db'.inventories pid tid =
         some { rt with quantity := rt.quantity + pyToInt qv } ∧
       data.new_stock = rt.quantity + pyToInt qv) := by
  obtain ⟨pid', sid', tid', qv', product, ss, ts, src, hp', hs', ht', hq',
    hqv, hst, hpr, hss, hts, hsrc, hlt, hdb', hdata⟩ := transfer_ok_inv h
  obtain rfl : pid = pid' := Option.some.inj (hp.symm.trans hp')
  obtain rfl : sid = sid' := Option.some.inj (hs.symm.trans hs')
  obtain rfl : tid = tid' := Option.some.inj (ht.symm.trans ht')
  obtain rfl : qv = qv' := Option.some.inj (hq.symm.trans hq')
  subst hdb'
  subst hdata
  have hsrc' : findInv db.inventories pid sid = some src := hsrc
  obtain ⟨hprodEq, hstoresEq, hmovEq, hsrcNew, hframe, hsum, hmatch⟩ :=
    transferAtomic_spec hsrc' hst rfl
  constructor
  · intro hnone
    have hft : findInv db.inventories pid tid = none := hnone
    rw [hft] at hmatch
    obtain ⟨hcr, hns, hfi⟩ := hmatch
    exact ⟨hcr, hfi.trans (by simp), hns.trans (zero_add _)⟩
  · intro rt hrt
    have hft : findInv db.inventories pid tid = some rt := hrt
    rw [hft] at hmatch
    obtain ⟨hcr, hns, hfi⟩ := hmatch
    exact ⟨hcr, hfi, hns⟩

/-- Witness for C6 applied at a concrete state: transferring into a store
with no row for the product creates it with quantity 30 and min_stock 0. -/
theorem transfer_target_get_or_create_w :
    dataC.inventory_created = true ∧
    findInv (transfer_inventory dbC bodyW).2.inventories 1 2 =
      some ⟨1, 2, 30, 0⟩ ∧
    dataC.new_stock = 30 :=
  (transfer_target_get_or_create dbC bodyW dataC
    (transfer_inventory dbC bodyW).2 1 1 2 (.pint 30)
    rfl rfl rfl rfl (by decide)).1 (by decide)

/-- C10: a successful Transfer changes nothing outside the two affected
Inventory rows: products and stores are untouched, movements only grow by
the one appended row, Inventory rows keyed outside \x7b(p,s),(p,t)\x7d are
exactly preserved, and the source row (and a pre-existing target row) keep
their `min_stock` while only their quantity moves. -/
theorem transfer_frame_condition
    (db : DB) (body : TransferBody) (data : TransferData) (db' : DB)
    (pid sid tid : Nat) (qv : PyVal)
    (hp : body.product_id = some pid) (hs : body.source_store_id = some sid)
    (ht : body.target_store_id = some tid) (hq : body.quantity = some qv)
    (h : transfer_inventory db body = (.ok data, db')) :
    db'.products = db.products ∧
    db'.stores = db.stores ∧
    (∃ m, db'.movements = db.movements ++ [m]) ∧
    (∀ r : Inventory, ¬(r.product = pid ∧ (r.store = sid ∨ r.store = tid)) →
       (r ∈ db'.inventories ↔ r ∈ db.inventories)) ∧
    (∃ rs, findInv db.inventories pid sid = some rs ∧
       findInv db'.inventories pid sid =
         some { rs with quantity := rs.quantity - pyToInt qv }) ∧
    (∀ rt, findInv db.inventories pid tid = some rt →
       findInv db'.inventories pid tid =
         some { rt with quantity := rt.quantity + pyToInt qv }) := by
  obtain ⟨pid', sid', tid', qv', product, ss, ts, src, hp', hs', ht', hq',
    hqv, hst, hpr, hss, hts, hsrc, hlt, hdb', hdata⟩ := transfer_ok_inv h
  obtain rfl : pid = pid' := Option.some.inj (hp.symm.trans hp')
  obtain rfl : sid = sid' := Option.some.inj (hs.symm.trans hs')
  obtain rfl : tid = tid' := Option.some.inj (ht.symm.trans ht')
  obtain rfl : qv = qv' := Option.some.inj (hq.symm.trans hq')
  subst hdb'
  have hsrc' : findInv db.inventories pid sid = some src := hsrc
  obtain ⟨hprodEq, hstoresEq, hmovEq, hsrcNew, hframe, hsum, hmatch⟩ :=
    transferAtomic_spec hsrc' hst rfl
  refine ⟨hprodEq, hstoresEq, ⟨_, hmovEq⟩, hframe, ⟨src, hsrc', hsrcNew⟩, ?_⟩
  intro rt hrt
  rw [hrt] at hmatch
  exact hmatch.2.2

/-- Witness for C10 applied at a concrete state: the pre-existing target row
of `dbW` moves from 20 to 50 units with `min_stock` kept at 0. -/
theorem transfer_frame_condition_w :
    findInv (transfer_inventory dbW bodyW).2.inventories 1 2 =
      some ⟨1, 2, 50, 0⟩ :=
  (transfer_frame_condition dbW bodyW dataW
    (transfer_inventory dbW bodyW).2 1 1 2 (.pint 30)
    rfl rfl rfl rfl (by decide)).2.2.2.2.2 ⟨1, 2, 20, 0⟩ (by decide)

/-- C4: for a request that passed the field, quantity, same-store and
existence checks and whose source row holds quantity a: if a < q the call
fails with the insufficient-stock message, which contains the exact
substrings "Available: a" and "Required: q"; if q ≤ a (equality included)
the check passes and the transfer succeeds. -/
theorem transfer_insufficient_stock_check
    (db : DB) (body : TransferBody) (pid sid tid : Nat) (qv : PyVal)
    (product : Product) (ss ts : Store) (src : Inventory)
    (hp : body.product_id = some pid) (hs : body.source_store_id = some sid)
    (ht : body.target_store_id = some tid) (hq : body.quantity = some qv)
    (hqv : quantityValid qv = true) (hst : sid ≠ tid)
    (hpr : getProduct db pid = some product) (hss : getStore db sid = some ss)
    (hts : getStore db tid = some ts)
    (hsrc : getInventory db pid sid = some src) :
    (src.quantity < pyToInt qv →
       transfer_inventory db body =
         (.err 400 (insufficientMsg src.quantity (pyToInt qv)), db) ∧
       containsStr (insufficientMsg src.quantity (pyToInt qv))
         ("Available: " ++ toString src.quantity) ∧
       containsStr (insufficientMsg src.quantity (pyToInt qv))
         ("Required: " ++ toString (pyToInt qv))) ∧
    (pyToInt qv ≤ src.quantity →
       transfer_inventory db body =
         (.ok { product_id := pid
                product_name := product.name
                product_sku := product.sku
                source_store_id := sid
                source_store_name := ss.name
                remaining_stock := src.quantity - pyToInt qv
                target_store_id := tid
                target_store_name := ts.name
                new_stock := (transferAtomic db pid sid tid (pyToInt qv) src).2.2
                inventory_created :=
                  (transferAtomic db pid sid tid (pyToInt qv) src).2.1
                quantity_transferred := pyToInt qv },
          (transferAtomic db pid sid tid (pyToInt qv) src).1)) := by
  constructor
  · intro hlt
    refine ⟨?_, ?_, ?_⟩
    · simp only [transfer_inventory, hp, hs, ht, hq]
      rw [if_neg (not_not_intro hqv), if_neg hst]
      simp only [hpr, hss, hts, hsrc]
      rw [if_pos hlt]
    · refine ⟨"Insufficient stock. ",
        ", Required: " ++ (toString (pyToInt qv) ++ "."), ?_⟩
      rw [insufficientMsg,
        show ("Insufficient stock. Available: " : String) =
          "Insufficient stock. " ++ "Available: " by decide]
      simp only [String.append_assoc]
    · refine ⟨"Insufficient stock. Available: " ++
        (toString src.quantity ++ ", "), ".", ?_⟩
      rw [insufficientMsg,
        show (", Required: " : String) = ", " ++ "Required: " by decide]
      simp only [String.append_assoc]
  · intro hge
    simp only [transfer_inventory, hp, hs, ht, hq]
    rw [if_neg (not_not_intro hqv), if_neg hst]
    simp only [hpr, hss, hts, hsrc]
    rw [if_neg (not_lt.mpr hge)]

/-- Witness for C4 applied at a concrete state: asking for 10 units when 5
are available fails with a message containing "Available: 5" and
"Required: 10". -/
theorem transfer_insufficient_stock_check_w :
    transfer_inventory db4 body4 = (.err 400 (insufficientMsg 5 10), db4) ∧
    containsStr (insufficientMsg 5 10) ("Available: " ++ toString (5 : Int)) ∧
    containsStr (insufficientMsg 5 10) ("Required: " ++ toString (10 : Int)) :=
  (transfer_insufficient_stock_check db4 body4 1 1 2 (.pint 10)
    ⟨1, "Widget", "desc", "HO", 999, "SKU1"⟩ ⟨1, "Central", none⟩
    ⟨2, "Branch", some "addr"⟩ ⟨1, 1, 5, 0⟩
    rfl rfl rfl rfl (by decide) (by decide) (by decide) (by decide)
    (by decide) (by decide)).1 (by decide)

/-- C8: with all four fields present, the quantity check accepts exactly the
values that are Python integers (bool included, as a subclass of int) with a
positive integer value; every other value fails with the InvalidQuantity
error and an unchanged state, and once the check passes no later error of the
call carries that message. -/
theorem transfer_quantity_validation
    (db : DB) (body : TransferBody) (pid sid tid : Nat) (qv : PyVal)
    (hp : body.product_id = some pid) (hs : body.source_store_id = some sid)
    (ht : body.target_store_id = some tid) (hq : body.quantity = some qv) :
    (quantityValid qv = true ↔ isinstance_int qv = true ∧ 0 < pyToInt qv) ∧
    (quantityValid qv = false →
       transfer_inventory db body =
         (.err 400 "The quantity must be a positive integer.", db)) ∧
    (quantityValid qv = true →
       ∀ c m db', transfer_inventory db body = (.err c m, db') →
         m ≠ "The quantity must be a positive integer.") := by
  refine ⟨?_, ?_, ?_⟩
  · simp [quantityValid]
  · intro hf
    simp only [transfer_inventory, hp, hs, ht, hq]
    rw [if_pos (by simp [hf])]
  · intro hqv c m db' h
    simp only [transfer_inventory, hp, hs, ht, hq] at h
    rw [if_neg (not_not_intro hqv)] at h
    by_cases hst : sid = tid
    · rw [if_pos hst] at h
      rw [← err_inj (Prod.ext_iff.mp h).1]
      decide
    · rw [if_neg hst] at h
      cases hpr : getProduct db pid with
      | none =>
        simp only [hpr] at h
        rw [← err_inj (Prod.ext_iff.mp h).1]
        decide
      | some product =>
      simp only [hpr] at h
      cases hss : getStore db sid with
      | none =>
        simp only [hss] at h
        rw [← err_inj (Prod.ext_iff.mp h).1]
        decide
      | some ss =>
      cases hts : getStore db tid with
      | none =>
        simp only [hss, hts] at h
        rw [← err_inj (Prod.ext_iff.mp h).1]
        decide
      | some ts =>
      simp only [hss, hts] at h
      cases hsrc : getInventory db pid sid with
      | none =>
        simp only [hsrc] at h
        rw [← err_inj (Prod.ext_iff.mp h).1]
        exact outOfStockMsg_ne product.name ss.name
      | some src =>
      simp only [hsrc] at h
      by_cases hlt : src.quantity < pyToInt qv
      · rw [if_pos hlt] at h
        rw [← err_inj (Prod.ext_iff.mp h).1]
        exact insufficientMsg_ne src.quantity (pyToInt qv)
      · rw [if_neg hlt] at h
        exact absurd (Prod.ext_iff.mp h).1 (by simp)

/-- Witness for C8 applied at a concrete input: a JSON string quantity is
rejected with the InvalidQuantity message and the state is unchanged. -/
theorem transfer_quantity_validation_w :
    transfer_inventory dbW body8 =
      (.err 400 "The quantity must be a positive integer.", dbW) :=
  (transfer_quantity_validation dbW body8 1 1 2 (.pstr "x")
    rfl rfl rfl rfl).2.1 (by decide)

/-- C7: when the alerts call succeeds (no filter, or a filter naming an
existing store), an alert for a (product, store) pair is listed exactly when
that Inventory row satisfies quantity less than or equal to min_stock (and
matches the filter), and every listed alert carries
deficit = min_stock - current_stock and level critical exactly for zero
stock.  The well-formedness hypothesis states that inventory rows reference
existing products and stores, as the database foreign keys guarantee. -/
theorem alerts_membership_and_fields
    (db : DB) (filt : Option Nat) (data : AlertsData)
    (hwf : ∀ r ∈ db.inventories,
       (getProduct db r.product).isSome ∧ (getStore db r.store).isSome)
    (hok : inventory_alerts db filt = .ok data) :
    (∀ p s : Nat,
       (∃ a ∈ data.alerts, a.product_id = p ∧ a.store_id = s) ↔
       (∃ r ∈ db.inventories, r.product = p ∧ r.store = s ∧
          r.quantity ≤ r.min_stock ∧ (∀ sid, filt = some sid → s = sid))) ∧
    (∀ a ∈ data.alerts,
       a.deficit = a.min_stock - a.current_stock ∧
       (a.alert_level = "critical" ↔ a.current_stock = 0)) := by
  obtain ⟨rows, hdata, hrows⟩ :
      ∃ rows, data = buildAlerts db rows filt ∧
        ∀ r : Inventory, r ∈ rows ↔ r ∈ db.inventories ∧
          r.quantity ≤ r.min_stock ∧
          (∀ sid, filt = some sid → r.store = sid) := by
    cases filt with
    | none =>
      refine ⟨db.inventories.filter (fun r => r.quantity ≤ r.min_stock),
        ?_, ?_⟩
      · simp only [inventory_alerts] at hok
        exact (AlertsResult.ok.inj hok).symm
      · intro r
        rw [List.mem_filter]
        simp
    | some sid =>
      cases hgs : getStore db sid with
      | none =>
        simp only [inventory_alerts, hgs] at hok
        exact absurd hok (by simp)
      | some st =>
        refine ⟨(db.inventories.filter
            (fun r => r.quantity ≤ r.min_stock)).filter
            (fun r => r.store == sid), ?_, ?_⟩
        · simp only [inventory_alerts, hgs] at hok
          exact (AlertsResult.ok.inj hok).symm
        · intro r
          rw [List.mem_filter, List.mem_filter]
          simp only [decide_eq_true_eq, beq_iff_eq, Option.some.injEq]
          constructor
          · rintro ⟨⟨hmem, hlow⟩, hsid⟩
            exact ⟨hmem, hlow, fun sid' he => hsid.trans he⟩
          · rintro ⟨hmem, hlow, hfc⟩
            exact ⟨⟨hmem, hlow⟩, hfc sid rfl⟩
  subst hdata
  constructor
  · intro p s
    constructor
    · rintro ⟨a, ha, hap, has⟩
      obtain ⟨j, hj, rfl⟩ := mem_buildAlerts.mp ha
      obtain ⟨hrow, hpr, hst⟩ := mem_joinRows.mp hj
      obtain ⟨hmem, hlow, hfc⟩ := (hrows j.row).mp hrow
      have hid : j.product.id = j.row.product := getProduct_id hpr
      have hsid : j.store.id = j.row.store := getStore_id hst
      refine ⟨j.row, hmem, hid.symm.trans hap, hsid.symm.trans has,
        hlow, ?_⟩
      intro sid hf
      rw [← has]
      show j.store.id = sid
      rw [hsid]
      exact hfc sid hf
    · rintro ⟨r, hmem, hp0, hs0, hlow, hfc⟩
      have hrmem : r ∈ rows :=
        (hrows r).mpr ⟨hmem, hlow, fun sid hf => hs0.trans (hfc sid hf)⟩
      obtain ⟨pr, hpr⟩ := Option.isSome_iff_exists.mp (hwf r hmem).1
      obtain ⟨st, hst⟩ := Option.isSome_iff_exists.mp (hwf r hmem).2
      refine ⟨mkAlert ⟨r, pr, st⟩,
        mem_buildAlerts.mpr ⟨⟨r, pr, st⟩,
          mem_joinRows.mpr ⟨hrmem, hpr, hst⟩, rfl⟩, ?_, ?_⟩
      · show pr.id = p
        rw [getProduct_id hpr, hp0]
      · show st.id = s
        rw [getStore_id hst, hs0]
  · intro a ha
    obtain ⟨j, hj, rfl⟩ := mem_buildAlerts.mp ha
    exact mkAlert_fields j

/-- Witness for C7 applied at a concrete state: the critical alert of `db7`
reports deficit 2 and level critical for zero stock. -/
theorem alerts_membership_and_fields_w :
    (⟨1, "A", "S1", "Electronics", 1, "X", none, 0, 2, 2, "critical"⟩ :
        Alert).deficit =
      (⟨1, "A", "S1", "Electronics", 1, "X", none, 0, 2, 2, "critical"⟩ :
        Alert).min_stock -
      (⟨1, "A", "S1", "Electronics", 1, "X", none, 0, 2, 2, "critical"⟩ :
        Alert).current_stock ∧
    ((⟨1, "A", "S1", "Electronics", 1, "X", none, 0, 2, 2, "critical"⟩ :
        Alert).alert_level = "critical" ↔
     (⟨1, "A", "S1", "Electronics", 1, "X", none, 0, 2, 2, "critical"⟩ :
        Alert).current_stock = 0) :=
  (alerts_membership_and_fields db7 none data7 (by decide) (by decide)).2
    ⟨1, "A", "S1", "Electronics", 1, "X", none, 0, 2, 2, "critical"⟩
    (by decide)

/-- C9 (code evaluation at the failing schedule): the code performs the
source read (views.py:335) and the stock check (views.py:345) on an
unlocked row outside the transaction opened at views.py:352, so two
concurrent transfers of 5 units from a source holding 5 can both pass the
check on the same stale read and then commit their atomic blocks one after
the other.  Starting from `db9` (total stock 5 for product 1) the schedule
commits both transfers: the product total ends at 10 and two TRANSFER
movements are recorded, violating the conservation contract the claim
states the locking discipline must enforce. -/
theorem transfer_race_breaks_conservation :
    getInventory db9 1 1 = some staleRead ∧
    ¬ staleRead.quantity < 5 ∧
    sumQty 1 db9.inventories = 5 ∧
    sumQty 1 ((transferAtomic (transferAtomic db9 1 1 2 5 staleRead).1
        1 1 2 5 staleRead).1).inventories = 10 ∧
    ((transferAtomic (transferAtomic db9 1 1 2 5 staleRead).1
        1 1 2 5 staleRead).1).movements =
      [⟨1, some 1, some 2, 5, "TRANSFER"⟩,
       ⟨1, some 1, some 2, 5, "TRANSFER"⟩] := by
  decide

end RetailApi
